import Mathlib

/-!
Shallow embedding of the reconciliation backend (Vima / PayShack ETL and
reconciliation services) and proofs about its behaviour.

Amounts are Python `Decimal` values, modelled exactly as rationals (`ℚ`).
Optional string fields are `Option String`; Python truthiness on such a
field (`if x:`) is `strOptTruthy` (false on `None` and on the empty string).
-/

namespace HubDash

/-- Python truthiness of an optional string: `None` and `""` are falsy. -/
def strOptTruthy : Option String → Bool
  | none => false
  | some s => !(s == "")

/-- A canonical transaction row as loaded by
`ReconciliationService._load_transactions` (only the fields the
reconciliation pass reads). -/
structure Txn where
  id : Nat
  clientOperationId : Option String
  orderId : Option String
  amount : ℚ
  status : String
deriving Repr, DecidableEq

/-- One `ReconciliationResult` row (the fields set by
`ReconciliationService.run_for_date` / `_compare_transactions`). -/
structure ReconResult where
  vimaTxnId : Option Nat
  payshackTxnId : Option Nat
  clientOperationId : Option String
  matchStatus : String
  discrepancyType : Option String
  vimaAmount : Option ℚ
  payshackAmount : Option ℚ
  amountDiff : Option ℚ
  vimaStatus : Option String
  payshackStatus : Option String
  details : Option (List String)
deriving Repr, DecidableEq

/-- Embeds `ReconciliationService.AMOUNT_TOLERANCE = Decimal("0.01")`. -/
def AMOUNT_TOLERANCE : ℚ := 1/100

/-- Embeds `ReconciliationService.AMOUNT_TOLERANCE_PERCENT = Decimal("0.001")`. -/
def AMOUNT_TOLERANCE_PERCENT : ℚ := 1/1000

/-- Embeds `ReconciliationService._compare_transactions`: compare a matched
Vima/PayShack pair and build the result row. -/
def compareTransactions (vima payshack : Txn) : ReconResult :=
  let amountDiff : ℚ := |vima.amount - payshack.amount|
  let tolerance : ℚ := max AMOUNT_TOLERANCE (vima.amount * AMOUNT_TOLERANCE_PERCENT)
  let discrepancies : List String :=
    (if amountDiff > tolerance then ["amount"] else []) ++
    (if vima.status ≠ payshack.status then ["status"] else [])
  if discrepancies ≠ [] then
    { vimaTxnId := some vima.id
      payshackTxnId := some payshack.id
      clientOperationId := vima.clientOperationId
      matchStatus := "discrepancy"
      discrepancyType := discrepancies.head?
      vimaAmount := some vima.amount
      payshackAmount := some payshack.amount
      amountDiff := if "amount" ∈ discrepancies then some amountDiff else none
      vimaStatus := some vima.status
      payshackStatus := some payshack.status
      details := some discrepancies }
  else
    { vimaTxnId := some vima.id
      payshackTxnId := some payshack.id
      clientOperationId := vima.clientOperationId
      matchStatus := "matched"
      discrepancyType := none
      vimaAmount := some vima.amount
      payshackAmount := some payshack.amount
      amountDiff := none
      vimaStatus := some vima.status
      payshackStatus := some payshack.status
      details := none }

/-- C2: amount mismatch is declared iff `|amountA - amountB|` exceeds
`max(0.01, amountA * 0.001)` in exact arithmetic; a pair differing by exactly
the tolerance (statuses equal) is `matched`, and a pair one paisa beyond it is
a `discrepancy` of kind `amount`.  (Vima amount 100: tolerance is 0.1; the
PayShack amounts 100.10 and 100.11 sit at and one unit past the boundary.) -/
theorem amount_tolerance_iff_and_boundary :
    (∀ v p : Txn, (compareTransactions v p).amountDiff ≠ none ↔
        |v.amount - p.amount| > max AMOUNT_TOLERANCE (v.amount * AMOUNT_TOLERANCE_PERCENT))
    ∧ (compareTransactions
        { id := 1, clientOperationId := some "k", orderId := none,
          amount := 100, status := "success" }
        { id := 2, clientOperationId := some "k", orderId := some "k",
          amount := 1001/10, status := "success" }).matchStatus = "matched"
    ∧ (compareTransactions
        { id := 1, clientOperationId := some "k", orderId := none,
          amount := 100, status := "success" }
        { id := 2, clientOperationId := some "k", orderId := some "k",
          amount := 10011/100, status := "success" }).matchStatus = "discrepancy"
    ∧ (compareTransactions
        { id := 1, clientOperationId := some "k", orderId := none,
          amount := 100, status := "success" }
        { id := 2, clientOperationId := some "k", orderId := some "k",
          amount := 10011/100, status := "success" }).discrepancyType = some "amount" := by
  refine ⟨fun v p => ?_, ?_, ?_, ?_⟩
  · by_cases hA : |v.amount - p.amount| > max AMOUNT_TOLERANCE (v.amount * AMOUNT_TOLERANCE_PERCENT)
    · by_cases hS : v.status ≠ p.status <;>
        simp [compareTransactions, hA, hS]
    · by_cases hS : v.status ≠ p.status <;>
        simp [compareTransactions, hA, hS]
  · norm_num [compareTransactions, AMOUNT_TOLERANCE, AMOUNT_TOLERANCE_PERCENT, abs]
  · norm_num [compareTransactions, AMOUNT_TOLERANCE, AMOUNT_TOLERANCE_PERCENT, abs]
  · norm_num [compareTransactions, AMOUNT_TOLERANCE, AMOUNT_TOLERANCE_PERCENT, abs]

/-- C3: a matched pair differing both in amount (beyond tolerance) and in
canonical status is classified `discrepancy` with kind `amount`, never
`status` (the amount entry is appended first, and the primary discrepancy is
the head of the list). -/
theorem both_mismatch_kind_amount (v p : Txn)
    (hA : |v.amount - p.amount| > max AMOUNT_TOLERANCE (v.amount * AMOUNT_TOLERANCE_PERCENT))
    (hS : v.status ≠ p.status) :
    (compareTransactions v p).matchStatus = "discrepancy"
    ∧ (compareTransactions v p).discrepancyType = some "amount" := by
  simp [compareTransactions, hA, hS]

/-- Witness for C3 at a concrete pair (amounts 100 vs 200, statuses
success vs failed). -/
theorem both_mismatch_kind_amount_witness :
    (compareTransactions
      { id := 1, clientOperationId := some "k", orderId := none,
        amount := 100, status := "success" }
      { id := 2, clientOperationId := some "k", orderId := some "k",
        amount := 200, status := "failed" }).matchStatus = "discrepancy"
    ∧ (compareTransactions
      { id := 1, clientOperationId := some "k", orderId := none,
        amount := 100, status := "success" }
      { id := 2, clientOperationId := some "k", orderId := some "k",
        amount := 200, status := "failed" }).discrepancyType = some "amount" :=
  both_mismatch_kind_amount _ _
    (by norm_num [AMOUNT_TOLERANCE, AMOUNT_TOLERANCE_PERCENT, abs])
    (by simp)

/-! ### Upsert semantics (Sync Engine) -/

/-- A full canonical `Transaction` row as built by the normalizers and
stored by the sync services (timestamps and the raw payload are kept as
opaque optional strings). -/
structure TransactionRow where
  source : String
  sourceId : String
  referenceId : Option String
  clientOperationId : Option String
  orderId : Option String
  project : Option String
  merchantId : Option String
  amount : ℚ
  currency : String
  amountUsd : Option ℚ
  fee : Option ℚ
  feeUsd : Option ℚ
  exchangeRate : Option ℚ
  status : String
  originalStatus : String
  userId : Option String
  userEmail : Option String
  userPhone : Option String
  userName : Option String
  country : Option String
  utr : Option String
  paymentMethod : Option String
  paymentProduct : Option String
  createdAt : Option String
  updatedAt : Option String
  completedAt : Option String
  sourceCreateCursor : Option String
  sourceUpdateCursor : Option String
  rawData : String
  dataHash : String
  ingestedAt : Option String
deriving Repr, DecidableEq

/-- Embeds `VimaSyncService._upsert_transactions`: the `ON CONFLICT (data_hash)
DO UPDATE SET ...` clause, applied to the existing row and the excluded
(incoming) row. -/
def vimaOnConflictUpdate (old excluded : TransactionRow) : TransactionRow :=
  { old with
    status := excluded.status
    originalStatus := excluded.originalStatus
    updatedAt := excluded.updatedAt
    completedAt := excluded.completedAt
    sourceUpdateCursor := excluded.sourceUpdateCursor
    rawData := excluded.rawData }

/-- Embeds `PayShackSyncService._upsert_transactions`: the `ON CONFLICT (data_hash)
DO UPDATE SET ...` clause (the incoming values are bound from the normalized
record; `ingested_at` is set to the current time, modelled as the incoming
row's ingestion stamp). -/
def payshackOnConflictUpdate (old incoming : TransactionRow) : TransactionRow :=
  { old with
    status := incoming.status
    originalStatus := incoming.originalStatus
    updatedAt := incoming.updatedAt
    completedAt := incoming.completedAt
    utr := incoming.utr
    amountUsd := incoming.amountUsd
    feeUsd := incoming.feeUsd
    exchangeRate := incoming.exchangeRate
    rawData := incoming.rawData
    ingestedAt := incoming.ingestedAt }

/-- A pair of rows equal except in the update-cursor (and USD) fields,
exhibiting what the Vima conflict update really overwrites. -/
def c1OldRow : TransactionRow :=
  { source := "vima", sourceId := "op-1", referenceId := none
    clientOperationId := some "c-1", orderId := none, project := some "monetix"
    merchantId := none, amount := 100, currency := "INR"
    amountUsd := some (12/10), fee := none, feeUsd := none, exchangeRate := none
    status := "pending", originalStatus := "in_process"
    userId := none, userEmail := none, userPhone := none, userName := none
    country := none, utr := none, paymentMethod := none, paymentProduct := none
    createdAt := some "2025-01-01T00:00:00", updatedAt := some "2025-01-01T00:00:00"
    completedAt := none, sourceCreateCursor := some "cc-1"
    sourceUpdateCursor := some "uc-1", rawData := "raw-old", dataHash := "h1"
    ingestedAt := some "2025-01-01T00:00:05" }

/-- The re-fetched row for the same dedup key, with a new update cursor and
new derived-USD value. -/
def c1NewRow : TransactionRow :=
  { c1OldRow with
    status := "success", originalStatus := "success"
    updatedAt := some "2025-01-02T00:00:00"
    completedAt := some "2025-01-02T00:00:00"
    sourceUpdateCursor := some "uc-2", rawData := "raw-new"
    amountUsd := some (13/10), ingestedAt := some "2025-01-02T00:00:05" }

/-- C1 counterexample: the claim says only status, original status,
updated/completed timestamps, derived USD fields and raw payload are
overwritten on conflict; but the Vima conflict update also overwrites the
source update cursor, and it leaves the derived USD fields untouched even
when the incoming row changes them. -/
theorem vima_upsert_overwrites_update_cursor :
    (vimaOnConflictUpdate c1OldRow c1NewRow).sourceUpdateCursor ≠ c1OldRow.sourceUpdateCursor
    ∧ (vimaOnConflictUpdate c1OldRow c1NewRow).amountUsd = c1OldRow.amountUsd
    ∧ c1NewRow.amountUsd ≠ c1OldRow.amountUsd := by
  refine ⟨?_, rfl, ?_⟩
  · simp [vimaOnConflictUpdate, c1OldRow, c1NewRow]
  · simp [c1OldRow, c1NewRow]
    norm_num

/-- C1 (amended): on a dedup-key conflict the Vima upsert overwrites exactly
status, original status, the updated/completed timestamps, the source update
cursor and the raw payload (not the derived USD fields); the PayShack upsert
overwrites exactly status, original status, the updated/completed
timestamps, UTR, the derived USD fields, the raw payload and the ingestion
stamp (not the source update cursor).  In both cases the identity/amount
fields (source, source-native id, amount, currency, creation timestamp,
business keys, dedup key) keep their prior values. -/
theorem upsert_frame_effect (old ex : TransactionRow) :
    ((vimaOnConflictUpdate old ex).source = old.source
      ∧ (vimaOnConflictUpdate old ex).sourceId = old.sourceId
      ∧ (vimaOnConflictUpdate old ex).amount = old.amount
      ∧ (vimaOnConflictUpdate old ex).currency = old.currency
      ∧ (vimaOnConflictUpdate old ex).createdAt = old.createdAt
      ∧ (vimaOnConflictUpdate old ex).clientOperationId = old.clientOperationId
      ∧ (vimaOnConflictUpdate old ex).orderId = old.orderId
      ∧ (vimaOnConflictUpdate old ex).dataHash = old.dataHash
      ∧ (vimaOnConflictUpdate old ex).amountUsd = old.amountUsd
      ∧ (vimaOnConflictUpdate old ex).feeUsd = old.feeUsd
      ∧ (vimaOnConflictUpdate old ex).exchangeRate = old.exchangeRate
      ∧ (vimaOnConflictUpdate old ex).sourceCreateCursor = old.sourceCreateCursor)
    ∧ ((vimaOnConflictUpdate old ex).status = ex.status
      ∧ (vimaOnConflictUpdate old ex).originalStatus = ex.originalStatus
      ∧ (vimaOnConflictUpdate old ex).updatedAt = ex.updatedAt
      ∧ (vimaOnConflictUpdate old ex).completedAt = ex.completedAt
      ∧ (vimaOnConflictUpdate old ex).sourceUpdateCursor = ex.sourceUpdateCursor
      ∧ (vimaOnConflictUpdate old ex).rawData = ex.rawData)
    ∧ ((payshackOnConflictUpdate old ex).source = old.source
      ∧ (payshackOnConflictUpdate old ex).sourceId = old.sourceId
      ∧ (payshackOnConflictUpdate old ex).amount = old.amount
      ∧ (payshackOnConflictUpdate old ex).currency = old.currency
      ∧ (payshackOnConflictUpdate old ex).createdAt = old.createdAt
      ∧ (payshackOnConflictUpdate old ex).clientOperationId = old.clientOperationId
      ∧ (payshackOnConflictUpdate old ex).orderId = old.orderId
      ∧ (payshackOnConflictUpdate old ex).dataHash = old.dataHash
      ∧ (payshackOnConflictUpdate old ex).sourceCreateCursor = old.sourceCreateCursor
      ∧ (payshackOnConflictUpdate old ex).sourceUpdateCursor = old.sourceUpdateCursor)
    ∧ ((payshackOnConflictUpdate old ex).status = ex.status
      ∧ (payshackOnConflictUpdate old ex).originalStatus = ex.originalStatus
      ∧ (payshackOnConflictUpdate old ex).updatedAt = ex.updatedAt
      ∧ (payshackOnConflictUpdate old ex).completedAt = ex.completedAt
      ∧ (payshackOnConflictUpdate old ex).utr = ex.utr
      ∧ (payshackOnConflictUpdate old ex).amountUsd = ex.amountUsd
      ∧ (payshackOnConflictUpdate old ex).feeUsd = ex.feeUsd
      ∧ (payshackOnConflictUpdate old ex).exchangeRate = ex.exchangeRate
      ∧ (payshackOnConflictUpdate old ex).rawData = ex.rawData
      ∧ (payshackOnConflictUpdate old ex).ingestedAt = ex.ingestedAt) := by
  and_intros <;> rfl

/-! ### PayShack client auth-retry behaviour -/

/-- Outcome of one HTTP GET of a transaction page (after the transient-retry
decorator): a successful body, a 401/403 auth failure, or another HTTP
error. -/
inductive HttpOutcome where
  | success (txns : List Nat)
  | authFail
  | httpFail (code : Nat)
deriving Repr, DecidableEq

/-- Result of `PayShackClient.get_payin_transactions` as seen by the caller:
the page data, or a raised `PayShackAPIError` with a status code. -/
inductive PSResult where
  | ok (txns : List Nat)
  | apiError (code : Nat)
deriving Repr, DecidableEq

/-- Embeds `PayShackClient.get_payin_transactions` (and identically
`get_payout_transactions`): on a 401/403 the client clears its token,
re-authenticates via `_ensure_auth` (which performs `login`; a login failure
raises and propagates), and then calls itself recursively with the same page
arguments.  `server call` is the HTTP outcome of the call-th page request,
`loginOk k` whether the k-th re-login succeeds, and `fuel` the Python
recursion budget (exhaustion models `RecursionError`).  The second component
counts the re-authentications performed. -/
def psFetchPage (server : Nat → HttpOutcome) (loginOk : Nat → Bool) :
    Nat → Nat → Nat → PSResult × Nat
  | _, _, 0 => (.apiError 1000, 0)
  | call, lidx, fuel + 1 =>
    match server call with
    | .success t => (.ok t, 0)
    | .httpFail c => (.apiError c, 0)
    | .authFail =>
      if loginOk lidx then
        let r := psFetchPage server loginOk (call + 1) (lidx + 1) fuel
        (r.1, r.2 + 1)
      else
        (.apiError 401, 1)

/-- The trace used against C4: the first two page requests answer 401 and
the third succeeds, with every re-login succeeding. -/
def c4Server : Nat → HttpOutcome :=
  fun call => if call < 2 then .authFail else .success []

/-- C4 counterexample: the claim says the retried request failing with an
auth error again is fatal, with exactly one re-authentication; but on a
trace where the first retry fails with 401 again, the client re-authenticates
a second time and returns the third attempt's data instead of an error. -/
theorem auth_retry_not_single :
    psFetchPage c4Server (fun _ => true) 0 0 10 = (.ok [], 2) := by
  simp [psFetchPage, c4Server]

/-- C4 (amended): every 401/403 response triggers a re-authentication and a
retry of the same page, recursively and without a bound on the number of
auth retries (the recursion is limited only by the interpreter's recursion
budget); a failure during the re-authentication itself propagates to the
caller as an error. -/
theorem auth_retry_unfold (server : Nat → HttpOutcome) (loginOk : Nat → Bool)
    (call lidx fuel : Nat) :
    (server call = .authFail → loginOk lidx = true →
      psFetchPage server loginOk call lidx (fuel + 1) =
        ((psFetchPage server loginOk (call + 1) (lidx + 1) fuel).1,
         (psFetchPage server loginOk (call + 1) (lidx + 1) fuel).2 + 1))
    ∧ (server call = .authFail → loginOk lidx = false →
      psFetchPage server loginOk call lidx (fuel + 1) = (.apiError 401, 1))
    ∧ (∀ t, server call = .success t →
      psFetchPage server loginOk call lidx (fuel + 1) = (.ok t, 0))
    ∧ (psFetchPage (fun _ => .authFail) (fun _ => true) call lidx fuel).2 = fuel := by
  refine ⟨fun hs hl => ?_, fun hs hl => ?_, fun t hs => ?_, ?_⟩
  · simp [psFetchPage, hs, hl]
  · simp [psFetchPage, hs, hl]
  · simp [psFetchPage, hs]
  · induction fuel generalizing call lidx with
    | zero => simp [psFetchPage]
    | succ n ih => simp [psFetchPage, ih]

/-- Witness for C4 (amended) on a concrete trace: one 401 followed by a
successful retry performs exactly one re-authentication, and a failing
re-login surfaces as an API error. -/
theorem auth_retry_unfold_witness :
    psFetchPage c4Server (fun _ => true) 1 0 5 =
      ((psFetchPage c4Server (fun _ => true) 2 1 4).1,
       (psFetchPage c4Server (fun _ => true) 2 1 4).2 + 1)
    ∧ psFetchPage c4Server (fun _ => false) 1 0 5 = (.apiError 401, 1)
    ∧ psFetchPage c4Server (fun _ => true) 2 1 4 = (.ok [], 0) :=
  ⟨(auth_retry_unfold c4Server (fun _ => true) 1 0 4).1 (by simp [c4Server]) rfl,
   (auth_retry_unfold c4Server (fun _ => false) 1 0 4).2.1 (by simp [c4Server]) rfl,
   (auth_retry_unfold c4Server (fun _ => true) 2 1 3).2.2.1 [] (by simp [c4Server])⟩

/-! ### Pagination loops -/

/-- A raw Vima operation as seen by the pagination loop (only the create-id
cursor field matters there). -/
structure VimaOp where
  operationCreateId : Option String
deriving Repr, DecidableEq

/-- Embeds `VimaClient.get_all_operations`: cursor-paginated fetch loop.
`server call` is the page returned by the call-th request; the loop yields
batches and stops on an empty page, a missing/empty/non-advancing cursor, or
after `max_batches` iterations (the `Nat` argument counts the remaining
budget, `max_batches - batch_count`).  Returns the yielded batches and the
number of pages fetched. -/
def vimaGetAll (server : Nat → List VimaOp) :
    Nat → Option String → Nat → List (List VimaOp) × Nat
  | _, _, 0 => ([], 0)
  | call, cursor, r + 1 =>
    let ops := server call
    if ops.isEmpty then ([], 1)
    else
      match ops.getLast?.bind (fun o => o.operationCreateId) with
      | none => ([ops], 1)
      | some c =>
        if c = "" ∨ some c = cursor then ([ops], 1)
        else
          let rest := vimaGetAll server (call + 1) (some c) r
          (ops :: rest.1, rest.2 + 1)

/-- One page of the PayShack pay-in feed: the transaction list and the
reported `totalPages` (absent defaults to 1, as in `result.get("totalPages", 1)`). -/
structure PSPage where
  transactions : List Nat
  totalPages : Option Nat
deriving Repr, DecidableEq

/-- Embeds `PayShackClient.get_all_payin_transactions` (and identically
`get_all_payout_transactions`) for a remaining page budget of
`max_pages + 1 - page`: stops on an empty page, when the current page
reaches the reported total, or when the budget runs out. -/
def psGetAllAux (server : Nat → PSPage) : Nat → Nat → List (List Nat) × Nat
  | _, 0 => ([], 0)
  | page, r + 1 =>
    let res := server page
    if res.transactions.isEmpty then ([], 1)
    else if res.totalPages.getD 1 ≤ page then ([res.transactions], 1)
    else
      let rest := psGetAllAux server (page + 1) r
      (res.transactions :: rest.1, rest.2 + 1)

/-- The whole `while page <= max_pages` loop starting from `start_page`. -/
def psGetAll (server : Nat → PSPage) (startPage maxPages : Nat) :
    List (List Nat) × Nat :=
  psGetAllAux server startPage (maxPages + 1 - startPage)

theorem vimaGetAll_count_le (server : Nat → List VimaOp) :
    ∀ n call cursor, (vimaGetAll server call cursor n).2 ≤ n := by
  intro n
  induction n with
  | zero => intro call cursor; simp [vimaGetAll]
  | succ m ih =>
    intro call cursor
    simp only [vimaGetAll]
    split
    · omega
    · split
      · omega
      · split
        · omega
        · exact Nat.succ_le_succ (ih (call + 1) _)

theorem psGetAllAux_count_le (server : Nat → PSPage) :
    ∀ n page, (psGetAllAux server page n).2 ≤ n := by
  intro n
  induction n with
  | zero => intro page; simp [psGetAllAux]
  | succ m ih =>
    intro page
    simp only [psGetAllAux]
    split
    · omega
    · split
      · omega
      · exact Nat.succ_le_succ (ih (page + 1))

/-- C5: the pagination loops terminate with the documented stopping rules —
an empty page stops the loop, a reported current page at or past the total
stops it, a missing/empty/non-advancing cursor stops it, and the number of
pages fetched never exceeds the configured ceiling (`max_batches`
resp. `max_pages`). -/
theorem pagination_terminates :
    (∀ (server : Nat → List VimaOp) call cursor n,
      (vimaGetAll server call cursor n).2 ≤ n)
    ∧ (∀ (server : Nat → List VimaOp) call cursor n, server call = [] →
      vimaGetAll server call cursor (n + 1) = ([], 1))
    ∧ (∀ (server : Nat → List VimaOp) call cursor n (c : String),
      server call ≠ [] →
      ((server call).getLast?.bind (fun o => o.operationCreateId) = none ∨
        ((server call).getLast?.bind (fun o => o.operationCreateId) = some c ∧
          (c = "" ∨ some c = cursor))) →
      vimaGetAll server call cursor (n + 1) = ([server call], 1))
    ∧ (∀ (server : Nat → PSPage) startPage maxPages, 1 ≤ startPage →
      (psGetAll server startPage maxPages).2 ≤ maxPages)
    ∧ (∀ (server : Nat → PSPage) page n, (server page).transactions = [] →
      psGetAllAux server page (n + 1) = ([], 1))
    ∧ (∀ (server : Nat → PSPage) page n, (server page).transactions ≠ [] →
      (server page).totalPages.getD 1 ≤ page →
      psGetAllAux server page (n + 1) = ([(server page).transactions], 1)) := by
  refine ⟨fun server call cursor n => vimaGetAll_count_le server n call cursor,
    fun server call cursor n h => ?_,
    fun server call cursor n c hne hstop => ?_,
    fun server startPage maxPages hsp => ?_,
    fun server page n h => ?_,
    fun server page n hne hle => ?_⟩
  · simp [vimaGetAll, h]
  · rcases hstop with hnone | ⟨hsome, hc⟩
    · simp [vimaGetAll, List.isEmpty_iff, hne, hnone]
    · simp [vimaGetAll, List.isEmpty_iff, hne, hsome, hc]
  · calc (psGetAll server startPage maxPages).2
        ≤ maxPages + 1 - startPage := psGetAllAux_count_le server _ startPage
      _ ≤ maxPages := by omega
  · simp [psGetAllAux, h]
  · simp [psGetAllAux, List.isEmpty_iff, hne, hle]

/-- Witness for C5 on concrete feeds: a two-page Vima feed whose second page
repeats the cursor yields both pages then stops within the ceiling, and a
PayShack feed reporting one total page stops after one fetch. -/
theorem pagination_terminates_witness :
    (vimaGetAll (fun _ => [{ operationCreateId := some "a" }]) 0 none 7).2 ≤ 7
    ∧ vimaGetAll (fun _ => []) 0 none 4 = ([], 1)
    ∧ vimaGetAll (fun _ => [{ operationCreateId := some "a" }]) 1 (some "a") 4 =
        ([[{ operationCreateId := some "a" }]], 1)
    ∧ (psGetAll (fun _ => { transactions := [5], totalPages := some 3 }) 1 6).2 ≤ 6
    ∧ psGetAllAux (fun _ => { transactions := [], totalPages := none }) 1 4 = ([], 1)
    ∧ psGetAllAux (fun _ => { transactions := [5], totalPages := some 1 }) 1 4 =
        ([[5]], 1) :=
  ⟨pagination_terminates.1 _ 0 none 7,
   pagination_terminates.2.1 _ 0 none 3 rfl,
   pagination_terminates.2.2.1 _ 1 (some "a") 3 "a" (by simp)
     (Or.inr ⟨rfl, Or.inr rfl⟩),
   pagination_terminates.2.2.2.1 _ 1 6 (by omega),
   pagination_terminates.2.2.2.2.1 _ 1 3 rfl,
   pagination_terminates.2.2.2.2.2 _ 1 3 (by simp) (by simp)⟩

/-! ### Vima normalizer -/

/-- The fields of a raw Vima operation read by the amount / currency /
status part of `VimaNormalizer.normalize` (`payment*` fields are the nested
`create_params.params.payment` values; a missing nested object surfaces as
`none`). -/
structure VimaRaw where
  completeAmount : Option ℚ
  completeCurrency : Option String
  paymentAmountValue : Option ℚ
  paymentAmountCurrency : Option String
  paymentStatus : Option String
  currentStatus : Option String
deriving Repr, DecidableEq

/-- Embeds `VimaNormalizer.STATUS_MAP.get(key, "pending")`. -/
def vimaStatusMap (s : String) : String :=
  if s = "success" then "success"
  else if s = "fail" then "failed"
  else if s = "failed" then "failed"
  else if s = "in_process" then "pending"
  else if s = "in process" then "pending"
  else if s = "user_input_required" then "pending"
  else if s = "pending" then "pending"
  else "pending"

/-- The amount / currency / status portion of `VimaNormalizer.normalize`:
`complete_amount` is used verbatim when present, otherwise the nested
`create_params` amount value (default 0) is divided by 100; currency and
original status fall back through Python truthiness. -/
structure VimaNormalized where
  amount : ℚ
  currency : String
  status : String
  originalStatus : String
deriving Repr, DecidableEq

def vimaNormalize (raw : VimaRaw) : VimaNormalized :=
  let amount : ℚ :=
    match raw.completeAmount with
    | none => (raw.paymentAmountValue.getD 0) / 100
    | some a => a
  let currency : String :=
    if strOptTruthy raw.completeCurrency then (raw.completeCurrency.getD "")
    else raw.paymentAmountCurrency.getD "INR"
  let originalStatus : String :=
    if strOptTruthy raw.paymentStatus then (raw.paymentStatus.getD "")
    else raw.currentStatus.getD ""
  let statusKey : String := if originalStatus ≠ "" then originalStatus.toLower else ""
  { amount := amount
    currency := currency
    status := vimaStatusMap statusKey
    originalStatus := originalStatus }

/-- C6: `normalize` keeps `complete_amount` unchanged when it is present, and
otherwise divides the nested `create_params` payment amount value by 100
(concretely: a record carrying only the minor-unit value 12345 normalizes to
123.45). -/
theorem vima_amount_unit_detection (raw : VimaRaw) :
    (∀ a, raw.completeAmount = some a → (vimaNormalize raw).amount = a)
    ∧ (raw.completeAmount = none →
        (vimaNormalize raw).amount = (raw.paymentAmountValue.getD 0) / 100)
    ∧ (vimaNormalize
        { completeAmount := none, completeCurrency := none
          paymentAmountValue := some 12345, paymentAmountCurrency := some "INR"
          paymentStatus := some "success", currentStatus := none }).amount = 2469/20 := by
  refine ⟨fun a h => ?_, fun h => ?_, ?_⟩
  · simp [vimaNormalize, h]
  · simp [vimaNormalize, h]
  · norm_num [vimaNormalize]

/-- Witness for C6 at concrete records: a major-unit record with
`complete_amount = 55.5` and a minor-unit record with value 250. -/
theorem vima_amount_unit_detection_witness :
    (vimaNormalize
      { completeAmount := some (111/2), completeCurrency := some "INR"
        paymentAmountValue := none, paymentAmountCurrency := none
        paymentStatus := none, currentStatus := some "success" }).amount = 111/2
    ∧ (vimaNormalize
      { completeAmount := none, completeCurrency := none
        paymentAmountValue := some 250, paymentAmountCurrency := none
        paymentStatus := none, currentStatus := none }).amount =
        ((some (250 : ℚ)).getD 0) / 100 :=
  ⟨(vima_amount_unit_detection _).1 (111/2) rfl,
   (vima_amount_unit_detection _).2.1 rfl⟩

/-! ### Reconciliation pass (`ReconciliationService.run_for_date`) -/

/-- The key under which `run_for_date` files a PayShack transaction in the
match index: `order_id` when truthy, else `client_operation_id` when truthy,
else the transaction is not indexed. -/
def indexKey (t : Txn) : Option String :=
  if strOptTruthy t.orderId then t.orderId
  else if strOptTruthy t.clientOperationId then t.clientOperationId
  else none

/-- The PayShack index dict: insertion order follows the list, a later
transaction with the same key overwrites an earlier one. -/
def buildIndex : List Txn → (String → Option Txn)
  | [] => fun _ => none
  | t :: rest => fun k =>
    match buildIndex rest k with
    | some u => some u
    | none =>
      match indexKey t with
      | some kt => if k = kt then some t else none
      | none => none

/-- The `missing_payshack` result row built for an unmatched Vima
transaction. -/
def missingPayshackResult (v : Txn) : ReconResult :=
  { vimaTxnId := some v.id, payshackTxnId := none
    clientOperationId := v.clientOperationId
    matchStatus := "missing_payshack", discrepancyType := some "missing"
    vimaAmount := some v.amount, payshackAmount := none, amountDiff := none
    vimaStatus := some v.status, payshackStatus := none, details := none }

/-- The `missing_vima` result row built for an unconsumed PayShack
transaction (`order_id or client_operation_id` with Python truthiness). -/
def missingVimaResult (p : Txn) : ReconResult :=
  { vimaTxnId := none, payshackTxnId := some p.id
    clientOperationId := if strOptTruthy p.orderId then p.orderId else p.clientOperationId
    matchStatus := "missing_vima", discrepancyType := some "missing"
    vimaAmount := none, payshackAmount := some p.amount, amountDiff := none
    vimaStatus := none, payshackStatus := some p.status, details := none }

/-- The Vima-side matching loop of `run_for_date`: skips transactions whose
matching key is falsy, compares on an index hit (recording the consumed
PayShack id), and emits `missing_payshack` on a miss.  Returns the result
rows and the consumed PayShack ids. -/
def matchVima (index : String → Option Txn) : List Txn → List ReconResult × List Nat
  | [] => ([], [])
  | v :: rest =>
    if strOptTruthy v.clientOperationId then
      match index (v.clientOperationId.getD "") with
      | some p =>
        let r := matchVima index rest
        (compareTransactions v p :: r.1, p.id :: r.2)
      | none =>
        let r := matchVima index rest
        (missingPayshackResult v :: r.1, r.2)
    else matchVima index rest

/-- The aggregate summary written into the `ReconciliationRun` row. -/
structure PassSummary where
  results : List ReconResult
  totalVima : Nat
  totalPayshack : Nat
  matched : Nat
  discrepancies : Nat
  missingVima : Nat
  missingPayshack : Nat
deriving Repr, DecidableEq

/-- The pure core of `ReconciliationService.run_for_date` for one date:
build the index over the loaded PayShack transactions, run the matching
loop over the loaded Vima transactions, append one `missing_vima` row per
unconsumed PayShack transaction, and count outcomes. -/
def runForDatePure (vt pt : List Txn) : PassSummary :=
  let index := buildIndex pt
  let m := matchVima index vt
  let missingV := (pt.filter (fun p => !(m.2.contains p.id))).map missingVimaResult
  let results := m.1 ++ missingV
  { results := results
    totalVima := vt.length
    totalPayshack := pt.length
    matched := results.countP (fun r => r.matchStatus == "matched")
    discrepancies := results.countP (fun r => r.matchStatus == "discrepancy")
    missingVima := results.countP (fun r => r.matchStatus == "missing_vima")
    missingPayshack := results.countP (fun r => r.matchStatus == "missing_payshack") }

theorem matchVima_filter_truthy (index : String → Option Txn) (vt : List Txn) :
    matchVima index (vt.filter (fun t => strOptTruthy t.clientOperationId)) =
      matchVima index vt := by
  induction vt with
  | nil => rfl
  | cons v rest ih =>
    by_cases hv : strOptTruthy v.clientOperationId
    · simp only [List.filter_cons, hv, if_pos, matchVima]
      rw [ih]
    · simp only [List.filter_cons]
      rw [if_neg (by simp [hv])]
      rw [ih]
      simp [matchVima, hv]

theorem compareTransactions_ids (v p : Txn) :
    (compareTransactions v p).vimaTxnId = some v.id ∧
      (compareTransactions v p).payshackTxnId = some p.id := by
  unfold compareTransactions
  by_cases hA : |v.amount - p.amount| > max AMOUNT_TOLERANCE (v.amount * AMOUNT_TOLERANCE_PERCENT) <;>
    by_cases hS : v.status ≠ p.status <;> simp [hA, hS]

theorem matchVima_result_vima_ids (index : String → Option Txn) (vt : List Txn) :
    ∀ r ∈ (matchVima index vt).1, ∃ t ∈ vt,
      strOptTruthy t.clientOperationId = true ∧ r.vimaTxnId = some t.id := by
  induction vt with
  | nil => simp [matchVima]
  | cons v rest ih =>
    intro r hr
    by_cases hv : strOptTruthy v.clientOperationId
    · simp only [matchVima, hv, if_pos] at hr
      rcases hidx : index (v.clientOperationId.getD "") with _ | p <;>
        rw [hidx] at hr <;> simp only [List.mem_cons] at hr
      · rcases hr with rfl | hr
        · exact ⟨v, List.mem_cons_self .., hv, rfl⟩
        · obtain ⟨t, ht, h1, h2⟩ := ih r hr
          exact ⟨t, List.mem_cons_of_mem _ ht, h1, h2⟩
      · rcases hr with rfl | hr
        · exact ⟨v, List.mem_cons_self .., hv, (compareTransactions_ids v p).1⟩
        · obtain ⟨t, ht, h1, h2⟩ := ih r hr
          exact ⟨t, List.mem_cons_of_mem _ ht, h1, h2⟩
    · simp only [matchVima, hv, if_neg, Bool.false_eq_true, not_false_iff] at hr
      obtain ⟨t, ht, h1, h2⟩ := ih r hr
      exact ⟨t, List.mem_cons_of_mem _ ht, h1, h2⟩

/-- C7: Vima transactions with a falsy matching key (in particular a null
`client_operation_id`) are silently skipped by the pass: dropping them from
the loaded list leaves the result rows and the matched / discrepancies /
missing_payshack counts unchanged, and every result row that references a
Vima transaction references one with a truthy key. -/
theorem null_key_vima_excluded (vt pt : List Txn) :
    ((runForDatePure (vt.filter (fun t => strOptTruthy t.clientOperationId)) pt).results =
        (runForDatePure vt pt).results
      ∧ (runForDatePure (vt.filter (fun t => strOptTruthy t.clientOperationId)) pt).matched =
        (runForDatePure vt pt).matched
      ∧ (runForDatePure (vt.filter (fun t => strOptTruthy t.clientOperationId)) pt).discrepancies =
        (runForDatePure vt pt).discrepancies
      ∧ (runForDatePure (vt.filter (fun t => strOptTruthy t.clientOperationId)) pt).missingPayshack =
        (runForDatePure vt pt).missingPayshack)
    ∧ ∀ r ∈ (runForDatePure vt pt).results, ∀ i, r.vimaTxnId = some i →
        ∃ t ∈ vt, strOptTruthy t.clientOperationId = true ∧ t.id = i := by
  constructor
  · simp [runForDatePure, matchVima_filter_truthy]
  · intro r hr i hi
    simp only [runForDatePure, List.mem_append] at hr
    rcases hr with hr | hr
    · obtain ⟨t, ht, h1, h2⟩ := matchVima_result_vima_ids (buildIndex pt) vt r hr
      rw [hi] at h2
      exact ⟨t, ht, h1, (Option.some.injEq _ _).mp h2.symm⟩
    · obtain ⟨p, _, rfl⟩ := List.mem_map.mp hr
      simp [missingVimaResult] at hi

/-- Witness for C7: a single Vima transaction with a null matching key and
one PayShack transaction produce the same pass output as the empty Vima
list, and its results reference no Vima transaction. -/
theorem null_key_vima_excluded_witness :
    ((runForDatePure
        ([{ id := 1, clientOperationId := none, orderId := none,
            amount := 10, status := "success" }].filter
          (fun t => strOptTruthy t.clientOperationId))
        [{ id := 2, clientOperationId := some "x", orderId := some "x",
           amount := 10, status := "success" }]).results =
      (runForDatePure
        [{ id := 1, clientOperationId := none, orderId := none,
           amount := 10, status := "success" }]
        [{ id := 2, clientOperationId := some "x", orderId := some "x",
           amount := 10, status := "success" }]).results)
    ∧ (∀ r ∈ (runForDatePure
        [{ id := 1, clientOperationId := none, orderId := none,
           amount := 10, status := "success" }]
        [{ id := 2, clientOperationId := some "x", orderId := some "x",
           amount := 10, status := "success" }]).results,
        ∀ i, r.vimaTxnId = some i →
          ∃ t ∈ [{ id := 1, clientOperationId := none, orderId := none,
                   amount := 10, status := "success" : Txn }],
            strOptTruthy t.clientOperationId = true ∧ t.id = i) :=
  ⟨(null_key_vima_excluded _ _).1.1, (null_key_vima_excluded _ _).2⟩

/-! ### PayShack normalizer -/

/-- Fields of a raw PayShack pay-in transaction used by
`PayShackNormalizer.normalize_payin` for identity, key and status. -/
structure PayinRaw where
  txnId : Option String
  orderId : Option String
  amount : Option ℚ
  txnStatus : Option String
deriving Repr, DecidableEq

/-- Fields of a raw PayShack pay-out transaction used by
`PayShackNormalizer.normalize_payout`. -/
structure PayoutRaw where
  txnId : Option String
  transactionId : Option String
  orderId : Option String
  amount : Option ℚ
  txnStatus : Option String
  status : Option String
deriving Repr, DecidableEq

/-- Embeds `PayShackNormalizer.STATUS_MAP.get(key, "pending")`. -/
def payshackStatusMap (s : String) : String :=
  if s = "success" then "success"
  else if s = "failed" then "failed"
  else if s = "initiated" then "pending"
  else if s = "pending" then "pending"
  else if s = "in process" then "processing"
  else if s = "in_process" then "processing"
  else if s = "incomplete" then "pending"
  else if s = "refunded" then "refunded"
  else if s = "cb_refunded" then "refunded"
  else if s = "tampered" then "failed"
  else "pending"

/-- The identity/key/status portion of the normalized PayShack record. -/
structure PSNormalized where
  source : String
  sourceId : String
  clientOperationId : Option String
  orderId : Option String
  amount : ℚ
  status : String
  originalStatus : String
deriving Repr, DecidableEq

/-- Embeds `PayShackNormalizer.normalize_payin`: both matching-key fields are set
from the raw `orderId`. -/
def normalizePayin (raw : PayinRaw) : PSNormalized :=
  let originalStatus : String := raw.txnStatus.getD ""
  let statusKey : String := if originalStatus ≠ "" then originalStatus.toLower else ""
  { source := "payshack"
    sourceId := raw.txnId.getD ""
    clientOperationId := raw.orderId
    orderId := raw.orderId
    amount := raw.amount.getD 0
    status := payshackStatusMap statusKey
    originalStatus := originalStatus }

/-- Embeds `PayShackNormalizer.normalize_payout`: same key handling as pay-in, with
the pay-out status / id fallbacks. -/
def normalizePayout (raw : PayoutRaw) : PSNormalized :=
  let originalStatus : String :=
    if strOptTruthy raw.txnStatus then raw.txnStatus.getD ""
    else raw.status.getD ""
  let statusKey : String := if originalStatus ≠ "" then originalStatus.toLower else ""
  { source := "payshack"
    sourceId := if strOptTruthy raw.txnId then raw.txnId.getD ""
      else raw.transactionId.getD ""
    clientOperationId := raw.orderId
    orderId := raw.orderId
    amount := raw.amount.getD 0
    status := payshackStatusMap statusKey
    originalStatus := originalStatus }

/-- C9: both PayShack normalizers set `client_operation_id` and `order_id`
to the same value, the raw `orderId`; hence for any transaction row with
equal key fields the index fallback can only ever file it under its
`order_id` value. -/
theorem payshack_keys_agree :
    (∀ raw : PayinRaw, (normalizePayin raw).clientOperationId = (normalizePayin raw).orderId
      ∧ (normalizePayin raw).orderId = raw.orderId)
    ∧ (∀ raw : PayoutRaw, (normalizePayout raw).clientOperationId = (normalizePayout raw).orderId
      ∧ (normalizePayout raw).orderId = raw.orderId)
    ∧ (∀ t : Txn, t.clientOperationId = t.orderId →
        ∀ k, indexKey t = some k → t.orderId = some k) := by
  refine ⟨fun raw => ⟨rfl, rfl⟩, fun raw => ⟨rfl, rfl⟩, fun t heq k hk => ?_⟩
  unfold indexKey at hk
  by_cases h1 : strOptTruthy t.orderId
  · rwa [if_pos h1] at hk
  · rw [if_neg h1, heq, if_neg h1] at hk
    exact absurd hk (by simp)

/-- Witness for C9 at a concrete raw pay-in record and a concrete row. -/
theorem payshack_keys_agree_witness :
    (normalizePayin
      { txnId := some "T1", orderId := some "O1",
        amount := some 10, txnStatus := some "Success" }).clientOperationId =
      (normalizePayin
        { txnId := some "T1", orderId := some "O1",
          amount := some 10, txnStatus := some "Success" }).orderId
    ∧ ({ id := 3, clientOperationId := some "O1", orderId := some "O1",
         amount := 10, status := "success" : Txn }).orderId = some "O1" :=
  ⟨(payshack_keys_agree.1 _).1,
   payshack_keys_agree.2.2
     { id := 3, clientOperationId := some "O1", orderId := some "O1",
       amount := 10, status := "success" } rfl "O1" rfl⟩

theorem buildIndex_mem (pt : List Txn) (k : String) (u : Txn) :
    buildIndex pt k = some u → u ∈ pt ∧ indexKey u = some k := by
  induction pt with
  | nil => simp [buildIndex]
  | cons t rest ih =>
    intro h
    simp only [buildIndex] at h
    rcases hrest : buildIndex rest k with _ | w
    · rw [hrest] at h
      simp only at h
      rcases hkey : indexKey t with _ | kt <;> rw [hkey] at h
      · exact absurd h (by simp)
      · have h' : (if k = kt then some t else none) = some u := h
        by_cases hk : k = kt
        · rw [if_pos hk] at h'
          cases h'
          exact ⟨List.mem_cons_self .., by rw [hkey, hk]⟩
        · rw [if_neg hk] at h'
          exact absurd h' (by simp)
    · rw [hrest] at h
      cases h
      obtain ⟨h1, h2⟩ := ih hrest
      exact ⟨List.mem_cons_of_mem _ h1, h2⟩

theorem matchVima_consumed_ids (index : String → Option Txn) (vt : List Txn) :
    ∀ i ∈ (matchVima index vt).2, ∃ k p, index k = some p ∧ p.id = i := by
  induction vt with
  | nil => simp [matchVima]
  | cons v rest ih =>
    intro i hi
    by_cases hv : strOptTruthy v.clientOperationId
    · simp only [matchVima, hv, if_pos] at hi
      rcases hidx : index (v.clientOperationId.getD "") with _ | p <;>
        rw [hidx] at hi
      · exact ih i hi
      · simp only [List.mem_cons] at hi
        rcases hi with rfl | hi
        · exact ⟨v.clientOperationId.getD "", p, hidx, rfl⟩
        · exact ih i hi
    · simp only [matchVima, hv, if_neg, Bool.false_eq_true, not_false_iff] at hi
      exact ih i hi

theorem matchVima_result_ps_ids (index : String → Option Txn) (vt : List Txn) :
    ∀ r ∈ (matchVima index vt).1, r.payshackTxnId = none ∨
      ∃ k p, index k = some p ∧ r.payshackTxnId = some p.id := by
  induction vt with
  | nil => simp [matchVima]
  | cons v rest ih =>
    intro r hr
    by_cases hv : strOptTruthy v.clientOperationId
    · simp only [matchVima, hv, if_pos] at hr
      rcases hidx : index (v.clientOperationId.getD "") with _ | p <;>
        rw [hidx] at hr <;> simp only [List.mem_cons] at hr
      · rcases hr with rfl | hr
        · exact Or.inl rfl
        · exact ih r hr
      · rcases hr with rfl | hr
        · exact Or.inr ⟨v.clientOperationId.getD "", p, hidx,
            (compareTransactions_ids v p).2⟩
        · exact ih r hr
    · simp only [matchVima, hv, if_neg, Bool.false_eq_true, not_false_iff] at hr
      exact ih r hr

theorem missingV_filter_single (t : Txn) (q : Txn → Bool) :
    ∀ pt : List Txn, t ∈ pt → (pt.map Txn.id).Nodup → q t = true →
      ((pt.filter q).map missingVimaResult).filter
          (fun r => r.payshackTxnId == some t.id) = [missingVimaResult t] := by
  intro pt
  induction pt with
  | nil => simp
  | cons u rest ih =>
    intro hmem hnd hq
    simp only [List.map_cons, List.nodup_cons] at hnd
    rcases List.mem_cons.mp hmem with rfl | hrest
    · rw [List.filter_cons, if_pos hq, List.map_cons, List.filter_cons,
        if_pos (by simp [missingVimaResult])]
      have hrestnil :
          ((rest.filter q).map missingVimaResult).filter
            (fun r => r.payshackTxnId == some t.id) = [] := by
        rw [List.filter_eq_nil_iff]
        intro r hr
        obtain ⟨w, hw, rfl⟩ := List.mem_map.mp hr
        have hwid : w.id ≠ t.id := by
          intro he
          exact hnd.1 (he ▸ List.mem_map.mpr ⟨w, List.mem_of_mem_filter hw, rfl⟩)
        simp [missingVimaResult, hwid]
      rw [hrestnil]
    · have huid : u.id ≠ t.id := by
        intro he
        exact hnd.1 (he ▸ List.mem_map.mpr ⟨t, hrest, rfl⟩)
      rw [List.filter_cons]
      by_cases hqu : q u = true
      · rw [if_pos hqu, List.map_cons, List.filter_cons,
          if_neg (by simp [missingVimaResult, huid])]
        exact ih hrest hnd.2 hq
      · rw [if_neg hqu]
        exact ih hrest hnd.2 hq

/-- C10: a PayShack transaction whose `order_id` and `client_operation_id`
are both null is never entered into the match index, hence never consumed,
and the pass emits exactly one result for it: a `missing_vima` row with
discrepancy kind `missing`. -/
theorem keyless_payshack_missing_vima (vt pt : List Txn) (t : Txn)
    (hmem : t ∈ pt) (hord : t.orderId = none) (hcop : t.clientOperationId = none)
    (hnd : (pt.map Txn.id).Nodup) :
    (runForDatePure vt pt).results.filter
        (fun r => r.payshackTxnId == some t.id) = [missingVimaResult t]
    ∧ (missingVimaResult t).matchStatus = "missing_vima"
    ∧ (missingVimaResult t).discrepancyType = some "missing" := by
  refine ⟨?_, rfl, rfl⟩
  have hkey : indexKey t = none := by
    simp [indexKey, hord, hcop, strOptTruthy]
  have hid_ne : ∀ k p, buildIndex pt k = some p → p.id ≠ t.id := by
    intro k p hp he
    obtain ⟨hpmem, hpkey⟩ := buildIndex_mem pt k p hp
    have : p = t := List.inj_on_of_nodup_map hnd hpmem hmem he
    rw [this, hkey] at hpkey
    exact absurd hpkey (by simp)
  simp only [runForDatePure, List.filter_append]
  have hleft :
      (matchVima (buildIndex pt) vt).1.filter
        (fun r => r.payshackTxnId == some t.id) = [] := by
    rw [List.filter_eq_nil_iff]
    intro r hr
    rcases matchVima_result_ps_ids (buildIndex pt) vt r hr with hnone | ⟨k, p, hp, hpid⟩
    · simp [hnone]
    · simp only [hpid]
      simp [hid_ne k p hp]
  have hq : (fun p => !((matchVima (buildIndex pt) vt).2.contains p.id)) t = true := by
    simp only [Bool.not_eq_true']
    rw [List.contains_eq_any_beq, List.any_eq_false]
    intro i hi
    obtain ⟨k, p, hp, rfl⟩ := matchVima_consumed_ids (buildIndex pt) vt i hi
    simp [Ne.symm (hid_ne k p hp)]
  rw [hleft, missingV_filter_single t _ pt hmem hnd hq, List.nil_append]

/-- Witness for C10: one key-less PayShack transaction next to a keyed one,
against one Vima transaction that consumes the keyed one. -/
theorem keyless_payshack_missing_vima_witness :
    (runForDatePure
        [{ id := 1, clientOperationId := some "x", orderId := none,
           amount := 10, status := "success" }]
        [{ id := 2, clientOperationId := some "x", orderId := some "x",
           amount := 10, status := "success" },
         { id := 3, clientOperationId := none, orderId := none,
           amount := 7, status := "failed" }]).results.filter
        (fun r => r.payshackTxnId ==
          some ({ id := 3, clientOperationId := none, orderId := none,
                  amount := 7, status := "failed" : Txn }).id) =
      [missingVimaResult
        { id := 3, clientOperationId := none, orderId := none,
          amount := 7, status := "failed" }] :=
  (keyless_payshack_missing_vima _ _ _
    (List.mem_cons_of_mem _ (List.mem_cons_self ..)) rfl rfl (by simp)).1

/-! ### Reconciliation run failure semantics -/

/-- The mutable part of a `ReconciliationRun` row: created with status
`running` and null counts, finalized exactly once. -/
structure RunRow where
  status : String
  errorMessage : Option String
  totalVima : Option Nat
  totalPayshack : Option Nat
  matched : Option Nat
  discrepancies : Option Nat
  missingVima : Option Nat
  missingPayshack : Option Nat
deriving Repr, DecidableEq

/-- Embeds `ReconciliationService.run_for_date` at the persistence level.
`stored` is the `reconciliation_results` table content before the pass and
`loaded` the outcome of the fallible work inside the `try` block (loading
and matching, which may raise).  On an exception the run is marked `failed`
with the error truncated to 500 characters and nothing is added to the
results table; on success the pass's rows are persisted in one bulk
`add_all` and the run is completed with its aggregate counts — there is no
commit of result rows on any other path. -/
def runForDate (stored : List ReconResult)
    (loaded : Except String (List Txn × List Txn)) : RunRow × List ReconResult :=
  match loaded with
  | .error e =>
    ({ status := "failed", errorMessage := some (e.take 500)
       totalVima := none, totalPayshack := none, matched := none
       discrepancies := none, missingVima := none, missingPayshack := none },
     stored)
  | .ok (vt, pt) =>
    let s := runForDatePure vt pt
    ({ status := "completed", errorMessage := none
       totalVima := some s.totalVima, totalPayshack := some s.totalPayshack
       matched := some s.matched, discrepancies := some s.discrepancies
       missingVima := some s.missingVima, missingPayshack := some s.missingPayshack },
     stored ++ s.results)

/-- C8: an exception during the pass marks the run `failed` with the error
message truncated to at most 500 characters, and persists none of the
result rows computed in that pass — the stored results are exactly what
they were before; results are only ever appended by the single bulk write
of the success path. -/
theorem failed_run_discards_results (stored : List ReconResult) (e : String) :
    (runForDate stored (.error e)).2 = stored
    ∧ (runForDate stored (.error e)).1.status = "failed"
    ∧ (runForDate stored (.error e)).1.errorMessage = some (e.take 500)
    ∧ (e.take 500).length ≤ 500
    ∧ (∀ vt pt, (runForDate stored (.ok (vt, pt))).2 =
        stored ++ (runForDatePure vt pt).results) := by
  refine ⟨rfl, rfl, rfl, ?_, fun vt pt => rfl⟩
  rw [String.take_eq]
  show (String.mk (e.data.take 500)).length ≤ 500
  rw [String.length]
  simp

/-- Witness for C8 at a concrete store and error string. -/
theorem failed_run_discards_results_witness :
    (runForDate [] (.error "boom")).2 = []
    ∧ (runForDate [] (.error "boom")).1.status = "failed"
    ∧ (runForDate [] (.error "boom")).1.errorMessage = some ("boom".take 500)
    ∧ ("boom".take 500).length ≤ 500 :=
  ⟨(failed_run_discards_results [] "boom").1,
   (failed_run_discards_results [] "boom").2.1,
   (failed_run_discards_results [] "boom").2.2.1,
   (failed_run_discards_results [] "boom").2.2.2.1⟩

end HubDash
